import Mathlib

/-
  Verification of the classification-and-aggregation engine of
  harshamore/ritereport (src/app.py).

  Modelling conventions:
  * Monetary values are rationals (`Rat`): the Python reference uses floats,
    but all spec-level arithmetic (sums, differences, 1e-6 thresholds) is
    stated in exact decimal arithmetic, which `Rat` captures.
  * Python dicts keyed by strings are association lists with first-match
    lookup (`dictGet`); assignment prepends, which shadows older entries.
  * Pandas `Series.map(dict)` yields NaN on a missing key; the NaN-able
    category column is therefore `Option String`.
-/

namespace App

/-- The fixed ordered list of eight category labels (src/app.py lines 23-32). -/
def categories : List String :=
  ["Current Assets",
   "Long-term Assets",
   "Current Liabilities",
   "Long-term Liabilities",
   "Equity",
   "Revenue",
   "Operating Expenses",
   "Non-Operating Expenses"]

/-- One row of the uploaded trial balance: the three required columns
"Account Name", "Debit", "Credit" (src/app.py line 155). -/
structure LedgerRow where
  accountName : String
  debit : Rat
  credit : Rat
deriving DecidableEq, Repr

/-- The chart-of-accounts mapping `account name -> category label`, a Python
dict modelled as an association list with first-match lookup. -/
abbrev CategoryMapping := List (String × String)

/-- First-match lookup in an association list: `d.get(k)` / `k in d` on a
Python dict. -/
def dictGet {α β : Type} [DecidableEq α] : List (α × β) → α → Option β
  | [], _ => none
  | (k, v) :: rest, a => if k = a then some v else dictGet rest a

/-- Position of the first occurrence of an element, `list.index` in Python
(src/app.py line 176 guards membership before calling it). -/
def listIdx : List String → String → Nat
  | [], _ => 0
  | x :: rest, a => if x = a then 0 else listIdx rest a + 1

/-- The selectbox pre-selection index of the mapping form (src/app.py line 176):
`categories.index(default_cat) if default_cat in categories else 0`, where
`default_cat = chart_mapping.get(account, categories[0])` (line 175). -/
def formDefaultIndex (mapping : CategoryMapping) (account : String) : Nat :=
  let default_cat := (dictGet mapping account).getD (categories.getD 0 "")
  if default_cat ∈ categories then listIdx categories default_cat else 0

/-- The category the mapping form assigns to an account when the user keeps the
pre-selected choice: `categories[index]` for the selectbox index of
src/app.py line 176. -/
def resolveCategory (mapping : CategoryMapping) (account : String) : String :=
  categories.getD (formDefaultIndex mapping account) ""

/-- `df["Account Name"].unique()` (src/app.py line 170): account names in
first-occurrence order, duplicates dropped. -/
def uniqueAccounts (rows : List LedgerRow) : List String :=
  rows.foldl (fun acc r => if r.accountName ∈ acc then acc else acc ++ [r.accountName]) []

/-- One iteration of the mapping form (src/app.py lines 174-177): store the
resolved category for `account` in the session mapping. -/
def mappingStep (m : CategoryMapping) (account : String) : CategoryMapping :=
  (account, resolveCategory m account) :: m

/-- The session mapping after the mapping form has run over every unique
account of the upload (src/app.py lines 173-177). -/
def mappingAfterForm (mapping : CategoryMapping) (rows : List LedgerRow) : CategoryMapping :=
  (uniqueAccounts rows).foldl mappingStep mapping

/-- A trial-balance row after classification: the Category column added by
`df["Account Name"].map(chart_mapping)` (NaN on a missing key, hence
`Option String`) and the Amount column `Debit - Credit`
(src/app.py lines 185-186). -/
structure ClassifiedRow where
  accountName : String
  debit : Rat
  credit : Rat
  category : Option String
  amount : Rat
deriving DecidableEq, Repr

/-- Classification of the uploaded rows (src/app.py lines 185-186). -/
def classify (rows : List LedgerRow) (m : CategoryMapping) : List ClassifiedRow :=
  rows.map fun r =>
    { accountName := r.accountName
      debit := r.debit
      credit := r.credit
      category := dictGet m r.accountName
      amount := r.debit - r.credit }

/-- `cat_sums.get(cat, 0)`: the groupby-sum of Amount for one category,
0 when no row carries it; NaN-category rows never contribute
(src/app.py line 188 with the defaults of lines 191-202). -/
def catSum (classified : List ClassifiedRow) (cat : String) : Rat :=
  ((classified.filter fun c => decide (c.category = some cat)).map fun c => c.amount).sum

/-- `total_current_assets` (src/app.py line 191). -/
def totalCurrentAssets (classified : List ClassifiedRow) : Rat :=
  catSum classified "Current Assets"

/-- `total_long_assets` (src/app.py line 192). -/
def totalLongAssets (classified : List ClassifiedRow) : Rat :=
  catSum classified "Long-term Assets"

/-- `total_assets` (src/app.py line 193). -/
def totalAssets (classified : List ClassifiedRow) : Rat :=
  totalCurrentAssets classified + totalLongAssets classified

/-- `total_current_liab` (src/app.py line 195). -/
def totalCurrentLiab (classified : List ClassifiedRow) : Rat :=
  catSum classified "Current Liabilities"

/-- `total_long_liab` (src/app.py line 196). -/
def totalLongLiab (classified : List ClassifiedRow) : Rat :=
  catSum classified "Long-term Liabilities"

/-- `total_liabilities` (src/app.py line 197). -/
def totalLiabilities (classified : List ClassifiedRow) : Rat :=
  totalCurrentLiab classified + totalLongLiab classified

/-- `total_equity` (src/app.py line 198). -/
def totalEquity (classified : List ClassifiedRow) : Rat :=
  catSum classified "Equity"

/-- `total_revenue` (src/app.py line 200). -/
def totalRevenue (classified : List ClassifiedRow) : Rat :=
  catSum classified "Revenue"

/-- `total_op_exp` (src/app.py line 201). -/
def totalOpExp (classified : List ClassifiedRow) : Rat :=
  catSum classified "Operating Expenses"

/-- `total_non_op_exp` (src/app.py line 202). -/
def totalNonOpExp (classified : List ClassifiedRow) : Rat :=
  catSum classified "Non-Operating Expenses"

/-- `net_income = total_revenue - (total_op_exp + total_non_op_exp)`
(src/app.py lines 203-204). -/
def netIncome (classified : List ClassifiedRow) : Rat :=
  totalRevenue classified - (totalOpExp classified + totalNonOpExp classified)

/-- One line of an exported statement: {Description, Amount}
(src/app.py lines 237-247). -/
structure LineItem where
  description : String
  amount : Rat
deriving DecidableEq, Repr

/-- `income_statement_df` (src/app.py lines 237-240). -/
def incomeStatementDF (classified : List ClassifiedRow) : List LineItem :=
  [⟨"Revenue", totalRevenue classified⟩,
   ⟨"Operating Expenses", totalOpExp classified⟩,
   ⟨"Non-Operating Expenses", totalNonOpExp classified⟩,
   ⟨"Net Income", netIncome classified⟩]

/-- `balance_sheet_df` (src/app.py lines 242-247). -/
def balanceSheetDF (classified : List ClassifiedRow) : List LineItem :=
  [⟨"Current Assets", totalCurrentAssets classified⟩,
   ⟨"Long-term Assets", totalLongAssets classified⟩,
   ⟨"Total Assets", totalAssets classified⟩,
   ⟨"Current Liabilities", totalCurrentLiab classified⟩,
   ⟨"Long-term Liabilities", totalLongLiab classified⟩,
   ⟨"Equity", totalEquity classified⟩,
   ⟨"Total Liabilities & Equity", totalLiabilities classified + totalEquity classified⟩]

/-- The balance-sheet check
`abs(total_assets - (total_liabilities + total_equity)) < 1e-6`
(src/app.py line 231). -/
def checkBalanceFlag (classified : List ClassifiedRow) : Bool :=
  decide (|totalAssets classified - (totalLiabilities classified + totalEquity classified)|
            < (1 : Rat) / 1000000)

/-- `total_debits = df["Debit"].sum()` (src/app.py line 159). -/
def totalDebits (rows : List LedgerRow) : Rat :=
  (rows.map fun r => r.debit).sum

/-- `total_credits = df["Credit"].sum()` (src/app.py line 160). -/
def totalCredits (rows : List LedgerRow) : Rat :=
  (rows.map fun r => r.credit).sum

/-- The debit/credit mismatch warning condition
`abs(total_debits - total_credits) > 1e-6` (src/app.py line 161). -/
def balanceWarningFlag (rows : List LedgerRow) : Bool :=
  decide (|totalDebits rows - totalCredits rows| > (1 : Rat) / 1000000)

/-- The loop of src/app.py lines 254-258 building `category_first_account_map`:
`i` is the 0-based `trial_df` position of the head of the remaining rows;
a category absent from the accumulator is appended with value `i + 2`. -/
def crossRefAux : Nat → List ClassifiedRow → List (Option String × Nat) → List (Option String × Nat)
  | _, [], m => m
  | i, c :: rest, m =>
      crossRefAux (i + 1) rest
        (if (dictGet m c.category).isSome then m else m ++ [(c.category, i + 2)])

/-- `category_first_account_map` (src/app.py lines 253-258): category of the
first contributing row, mapped to its Excel row number `i + 2`. -/
def buildCrossReference (classified : List ClassifiedRow) : List (Option String × Nat) :=
  crossRefAux 0 classified []

/-- 0-based position of the first row carrying a given category value,
starting the count at `i`; `none` when no row does. -/
def firstOccurrence (cat : Option String) : Nat → List ClassifiedRow → Option Nat
  | _, [] => none
  | i, c :: rest => if c.category = cat then some i else firstOccurrence cat (i + 1) rest

/-- The five categories rolled into the balance-sheet totals, i.e. those with
Asset, Liability or Equity role (src/app.py lines 191-198). -/
def aleCategories : List String :=
  ["Current Assets", "Long-term Assets", "Current Liabilities",
   "Long-term Liabilities", "Equity"]

/-- The uploaded table: its column names and its parsed rows
(src/app.py lines 154-156). -/
structure UploadedTable where
  columns : List String
  rows : List LedgerRow
deriving DecidableEq, Repr

/-- `required_columns` (src/app.py line 155). -/
def requiredColumns : List String := ["Account Name", "Debit", "Credit"]

/-- Everything the generation pass produces for one upload: warning flags,
both statements' line items, and the cross-reference
(src/app.py lines 159-258). -/
structure Output where
  debitCreditWarning : Bool
  incomeStatement : List LineItem
  balanceSheet : List LineItem
  balanceSheetBalanced : Bool
  crossReference : List (Option String × Nat)
deriving DecidableEq, Repr

/-- The full generation pass over a schema-valid upload: run the mapping form
defaults, classify, aggregate, build both statements, the balance flags and
the cross-reference (src/app.py lines 159-258). -/
def generate (rows : List LedgerRow) (mapping : CategoryMapping) : Output :=
  let m := mappingAfterForm mapping rows
  let classified := classify rows m
  { debitCreditWarning := balanceWarningFlag rows
    incomeStatement := incomeStatementDF classified
    balanceSheet := balanceSheetDF classified
    balanceSheetBalanced := checkBalanceFlag classified
    crossReference := buildCrossReference classified }

/-- The per-upload pipeline (src/app.py lines 153-258): the schema check on
the three required columns is the one abort; otherwise the whole generation
pass runs. -/
def process (tb : UploadedTable) (mapping : CategoryMapping) : Except String Output :=
  if ∀ c ∈ requiredColumns, c ∈ tb.columns then
    .ok (generate tb.rows mapping)
  else
    .error "The file must contain columns: Account Name, Debit, Credit"

/-- The mapping-store load of src/app.py lines 16-21. The store state is
`none` when `mapping.json` is absent, and `some p` when the file exists,
where `p : Option CategoryMapping` is the result of `json.load`: `some m`
on a parseable file and `none` when the parse raises. The code only guards
`os.path.exists`; a raised parse error propagates as `.error ()`. -/
def loadMapping : Option (Option CategoryMapping) → Except Unit CategoryMapping
  | none => .ok []
  | some (some m) => .ok m
  | some none => .error ()

end App

namespace App

/-! ### Helper lemmas -/

theorem dictGet_append {α β : Type} [DecidableEq α] (l₁ l₂ : List (α × β)) (a : α) :
    dictGet (l₁ ++ l₂) a = (dictGet l₁ a).or (dictGet l₂ a) := by
  induction l₁ with
  | nil => simp [dictGet]
  | cons p rest ih =>
      obtain ⟨k, v⟩ := p
      by_cases hk : k = a <;> simp [dictGet, hk, ih]

theorem getD_listIdx_categories {d : String} (h : d ∈ categories) :
    categories.getD (listIdx categories d) "" = d := by
  have h' : d = "Current Assets" ∨ d = "Long-term Assets" ∨ d = "Current Liabilities" ∨
      d = "Long-term Liabilities" ∨ d = "Equity" ∨ d = "Revenue" ∨
      d = "Operating Expenses" ∨ d = "Non-Operating Expenses" := by
    simpa [categories] using h
  rcases h' with rfl | rfl | rfl | rfl | rfl | rfl | rfl | rfl <;> decide

theorem resolveCategory_mem (m : CategoryMapping) (a : String) :
    resolveCategory m a ∈ categories := by
  unfold resolveCategory formDefaultIndex
  set d := (dictGet m a).getD (categories.getD 0 "") with hd
  by_cases hmem : d ∈ categories
  · rw [if_pos hmem, getD_listIdx_categories hmem]; exact hmem
  · rw [if_neg hmem]; decide

theorem resolveCategory_of_none {m : CategoryMapping} {a : String}
    (h : dictGet m a = none) : resolveCategory m a = "Current Assets" := by
  unfold resolveCategory formDefaultIndex
  rw [h]
  decide

theorem uniqueAccounts_aux_mem (rows : List LedgerRow) (acc : List String) (a : String)
    (h : a ∈ acc ∨ ∃ r ∈ rows, r.accountName = a) :
    a ∈ rows.foldl (fun acc r => if r.accountName ∈ acc then acc else acc ++ [r.accountName]) acc := by
  induction rows generalizing acc with
  | nil =>
      rcases h with h | ⟨r, hr, _⟩
      · simpa using h
      · simp at hr
  | cons r rest ih =>
      simp only [List.foldl_cons]
      apply ih
      rcases h with h | ⟨r', hr', ha⟩
      · left; by_cases hin : r.accountName ∈ acc <;> simp [hin, h]
      · rcases List.mem_cons.mp hr' with rfl | hr''
        · left
          rw [ha]
          by_cases hin : a ∈ acc
          · simp [hin]
          · simp [hin]
        · exact Or.inr ⟨r', hr'', ha⟩

theorem uniqueAccounts_mem {rows : List LedgerRow} {r : LedgerRow} (h : r ∈ rows) :
    r.accountName ∈ uniqueAccounts rows :=
  uniqueAccounts_aux_mem rows [] r.accountName (Or.inr ⟨r, h, rfl⟩)

theorem foldForm_lookup (accts : List String) (m : CategoryMapping) (a : String)
    (h : a ∈ accts ∨ ∃ c, dictGet m a = some c ∧ c ∈ categories) :
    ∃ c, dictGet (accts.foldl mappingStep m) a = some c ∧ c ∈ categories := by
  induction accts generalizing m with
  | nil =>
      rcases h with h | h
      · simp at h
      · simpa using h
  | cons x rest ih =>
      simp only [List.foldl_cons]
      apply ih
      by_cases hxa : x = a
      · subst hxa
        right
        exact ⟨resolveCategory m x, by simp [mappingStep, dictGet], resolveCategory_mem m x⟩
      · rcases h with h | h
        · rcases List.mem_cons.mp h with rfl | hrest
          · exact absurd rfl hxa
          · exact Or.inl hrest
        · right
          simpa [mappingStep, dictGet, hxa] using h

theorem mappingAfterForm_lookup {rows : List LedgerRow} {r : LedgerRow}
    (mapping : CategoryMapping) (h : r ∈ rows) :
    ∃ c, dictGet (mappingAfterForm mapping rows) r.accountName = some c ∧ c ∈ categories :=
  foldForm_lookup (uniqueAccounts rows) mapping r.accountName (Or.inl (uniqueAccounts_mem h))

theorem catSum_cons (x : ClassifiedRow) (rest : List ClassifiedRow) (cat : String) :
    catSum (x :: rest) cat = (if x.category = some cat then x.amount else 0) + catSum rest cat := by
  by_cases h : x.category = some cat <;> simp [catSum, List.filter_cons, h]

theorem sum_map_add_distrib (l : List String) (f g : String → Rat) :
    (l.map fun c => f c + g c).sum = (l.map f).sum + (l.map g).sum := by
  induction l with
  | nil => simp
  | cons c rest ih => simp [ih]; ring

theorem sum_map_ite_zero (l : List String) (c₀ : String) (a : Rat)
    (h : c₀ ∉ l) : (l.map fun c => if c₀ = c then a else 0).sum = 0 := by
  induction l with
  | nil => simp
  | cons c rest ih =>
      simp only [List.mem_cons, not_or] at h
      simp [h.1, ih h.2]

theorem sum_map_ite_single (l : List String) (c₀ : String) (a : Rat)
    (hnd : l.Nodup) (hmem : c₀ ∈ l) :
    (l.map fun c => if c₀ = c then a else 0).sum = a := by
  induction l with
  | nil => simp at hmem
  | cons c rest ih =>
      rcases List.mem_cons.mp hmem with rfl | hrest
      · have : c₀ ∉ rest := (List.nodup_cons.mp hnd).1
        simp [sum_map_ite_zero rest c₀ a this]
      · have hne : c₀ ≠ c := by
          rintro rfl
          exact (List.nodup_cons.mp hnd).1 hrest
        simp only [List.map_cons, List.sum_cons, if_neg hne]
        rw [ih (List.nodup_cons.mp hnd).2 hrest]
        ring

end App

namespace App

theorem crossRefAux_lookup (l : List ClassifiedRow) (i : Nat)
    (m : List (Option String × Nat)) (cat : Option String) :
    dictGet (crossRefAux i l m) cat =
      (dictGet m cat).or ((firstOccurrence cat i l).map fun j => j + 2) := by
  induction l generalizing i m with
  | nil => simp [crossRefAux, firstOccurrence]
  | cons c rest ih =>
      simp only [crossRefAux]
      by_cases hseen : (dictGet m c.category).isSome
      · rw [if_pos hseen, ih]
        by_cases hcat : c.category = cat
        · subst hcat
          obtain ⟨v, hv⟩ := Option.isSome_iff_exists.mp hseen
          simp [firstOccurrence, hv]
        · simp [firstOccurrence, hcat]
      · rw [if_neg hseen, ih, dictGet_append]
        by_cases hcat : c.category = cat
        · subst hcat
          have hnone : dictGet m c.category = none := Option.not_isSome_iff_eq_none.mp hseen
          simp [firstOccurrence, hnone, dictGet]
        · simp [firstOccurrence, hcat, dictGet]

theorem crossRefAux_bounds (l : List ClassifiedRow) (i : Nat)
    (m : List (Option String × Nat))
    (hm : ∀ p ∈ m, 2 ≤ p.2 ∧ p.2 < i + 2)
    (hnd : (m.map Prod.snd).Nodup) :
    (∀ p ∈ crossRefAux i l m, 2 ≤ p.2 ∧ p.2 < i + l.length + 2) ∧
      ((crossRefAux i l m).map Prod.snd).Nodup := by
  induction l generalizing i m with
  | nil =>
      refine ⟨fun p hp => ?_, by simpa [crossRefAux] using hnd⟩
      have hb := hm p (by simpa [crossRefAux] using hp)
      simp only [List.length_nil]
      omega
  | cons c rest ih =>
      simp only [crossRefAux]
      by_cases hseen : (dictGet m c.category).isSome
      · rw [if_pos hseen]
        have := ih (i + 1) m (fun p hp => by have := hm p hp; omega) hnd
        refine ⟨fun p hp => ?_, this.2⟩
        have hb := this.1 p hp
        simp only [List.length_cons]
        omega
      · rw [if_neg hseen]
        have hm' : ∀ p ∈ m ++ [(c.category, i + 2)], 2 ≤ p.2 ∧ p.2 < (i + 1) + 2 := by
          intro p hp
          rcases List.mem_append.mp hp with hp | hp
          · have := hm p hp; omega
          · simp at hp; subst hp; omega
        have hnd' : ((m ++ [(c.category, i + 2)]).map Prod.snd).Nodup := by
          rw [List.map_append, List.nodup_append]
          refine ⟨hnd, by simp, ?_⟩
          intro a ha hb
          simp at hb
          obtain ⟨p, hp, hpa⟩ := List.mem_map.mp ha
          have := hm p hp
          omega
        have := ih (i + 1) _ hm' hnd'
        refine ⟨fun p hp => ?_, this.2⟩
        have hb := this.1 p hp
        simp only [List.length_cons]
        omega

theorem sum_catSum_eq (cls : List ClassifiedRow)
    (h : ∀ cr ∈ cls, ∃ c, cr.category = some c ∧ c ∈ categories) :
    (categories.map fun cat => catSum cls cat).sum = (cls.map fun c => c.amount).sum := by
  induction cls with
  | nil => simp [catSum]
  | cons x rest ih =>
      obtain ⟨c₀, hc₀, hc₀mem⟩ := h x (List.mem_cons_self x rest)
      have hrest : ∀ cr ∈ rest, ∃ c, cr.category = some c ∧ c ∈ categories :=
        fun cr hcr => h cr (List.mem_cons_of_mem x hcr)
      simp only [catSum_cons]
      rw [sum_map_add_distrib categories
        (fun cat => if x.category = some cat then x.amount else 0)
        (fun cat => catSum rest cat)]
      simp only [hc₀, Option.some.injEq]
      rw [sum_map_ite_single categories c₀ x.amount (by decide) hc₀mem, ih hrest]
      simp

end App

namespace App

/-! ### Claim theorems -/

/-- C1: an account name absent from the CategoryMapping resolves to the first
category in canonical order, "Current Assets"; classification never fails:
after the mapping form has run, every uploaded row receives a category, and
that category is one of the eight labels. -/
theorem unmappedAccountDefaultsToFirstCategory
    (mapping : CategoryMapping) (rows : List LedgerRow) (account : String) :
    (dictGet mapping account = none → resolveCategory mapping account = "Current Assets") ∧
    categories.getD 0 "" = "Current Assets" ∧
    (∀ cr ∈ classify rows (mappingAfterForm mapping rows),
      ∃ c, cr.category = some c ∧ c ∈ categories) ∧
    (classify rows (mappingAfterForm mapping rows)).length = rows.length := by
  refine ⟨fun h => resolveCategory_of_none h, by decide, ?_, by simp [classify]⟩
  intro cr hcr
  obtain ⟨r, hr, rfl⟩ := List.mem_map.mp hcr
  obtain ⟨c, hc, hcmem⟩ := mappingAfterForm_lookup mapping hr
  exact ⟨c, hc, hcmem⟩

/-- Witness for C1 at a concrete input: the empty mapping resolves "Cash" to
"Current Assets", and the classified row of a one-row upload carries a
category from the fixed list. -/
theorem unmappedAccountDefaultsToFirstCategoryWitness :
    resolveCategory [] "Cash" = "Current Assets" ∧
    (∃ c, (⟨"Cash", 5, 0, some "Current Assets", 5⟩ : ClassifiedRow).category = some c ∧
      c ∈ categories) :=
  ⟨(unmappedAccountDefaultsToFirstCategory [] [] "Cash").1 rfl,
   (unmappedAccountDefaultsToFirstCategory [] [⟨"Cash", 5, 0⟩] "Cash").2.2.1
     ⟨"Cash", 5, 0, some "Current Assets", 5⟩
     (by simp +decide [classify, mappingAfterForm, uniqueAccounts, mappingStep,
        resolveCategory, formDefaultIndex, dictGet, listIdx, categories])⟩

/-- C2: the income statement is the fixed ordered sequence
[Revenue, Operating Expenses, Non-Operating Expenses, Net Income] with
Net Income = Revenue - (Operating Expenses + Non-Operating Expenses), every
category total being the raw signed sum of debit - credit; on the rows
[{A,100,0},{B,0,40},{C,60,0}] with mapping {A:Revenue, B:Operating Expenses,
C:Current Assets} this gives Revenue 100, Operating Expenses -40 and
Net Income 140. -/
theorem incomeStatementFixedOrderAndExample :
    (∀ cls : List ClassifiedRow,
      incomeStatementDF cls =
        [⟨"Revenue", totalRevenue cls⟩,
         ⟨"Operating Expenses", totalOpExp cls⟩,
         ⟨"Non-Operating Expenses", totalNonOpExp cls⟩,
         ⟨"Net Income", totalRevenue cls - (totalOpExp cls + totalNonOpExp cls)⟩]) ∧
    (totalRevenue (classify [⟨"A", 100, 0⟩, ⟨"B", 0, 40⟩, ⟨"C", 60, 0⟩]
        (mappingAfterForm [("A", "Revenue"), ("B", "Operating Expenses"), ("C", "Current Assets")]
          [⟨"A", 100, 0⟩, ⟨"B", 0, 40⟩, ⟨"C", 60, 0⟩])) = 100 ∧
     totalOpExp (classify [⟨"A", 100, 0⟩, ⟨"B", 0, 40⟩, ⟨"C", 60, 0⟩]
        (mappingAfterForm [("A", "Revenue"), ("B", "Operating Expenses"), ("C", "Current Assets")]
          [⟨"A", 100, 0⟩, ⟨"B", 0, 40⟩, ⟨"C", 60, 0⟩])) = -40 ∧
     netIncome (classify [⟨"A", 100, 0⟩, ⟨"B", 0, 40⟩, ⟨"C", 60, 0⟩]
        (mappingAfterForm [("A", "Revenue"), ("B", "Operating Expenses"), ("C", "Current Assets")]
          [⟨"A", 100, 0⟩, ⟨"B", 0, 40⟩, ⟨"C", 60, 0⟩])) = 140) := by
  refine ⟨fun cls => rfl, ?_, ?_, ?_⟩ <;>
    norm_num +decide [classify, mappingAfterForm, uniqueAccounts, mappingStep, resolveCategory,
      formDefaultIndex, dictGet, listIdx, categories, catSum, totalRevenue, totalOpExp,
      totalNonOpExp, netIncome, List.filter]

end App

namespace App

/-- C3 counterexample: a one-row ledger whose single account maps to Revenue.
Every account maps to a category, yet the sum of classified amounts over the
Asset/Liability/Equity categories is 0 while the ledger's debit - credit
total is 100, so the conservation claim restricted to those roles is false. -/
theorem aleConservationCounterexample :
    ¬ ((aleCategories.map fun cat =>
          catSum (classify [⟨"A", 100, 0⟩]
            (mappingAfterForm [("A", "Revenue")] [⟨"A", 100, 0⟩])) cat).sum
        = (([⟨"A", (100 : Rat), 0⟩] : List LedgerRow).map fun r => r.debit - r.credit).sum) := by
  simp +decide [aleCategories, classify, mappingAfterForm, uniqueAccounts, mappingStep,
    resolveCategory, formDefaultIndex, dictGet, listIdx, categories, catSum, List.filter]

/-- C3 amended: for every ledger, the sum of ClassifiedRow.amount over all
eight categories equals the sum of (debit - credit) over the original rows —
aggregation is a pure regrouping. (The sum over only the Asset, Liability and
Equity categories omits whatever was classified to Revenue or the expense
categories, so the claim holds with the sum taken over every category.) -/
theorem aggregationConservationAllCategories
    (rows : List LedgerRow) (mapping : CategoryMapping) :
    (categories.map fun cat =>
        catSum (classify rows (mappingAfterForm mapping rows)) cat).sum
      = (rows.map fun r => r.debit - r.credit).sum := by
  rw [sum_catSum_eq]
  · simp [classify, List.map_map]
    rfl
  · intro cr hcr
    obtain ⟨r, hr, rfl⟩ := List.mem_map.mp hcr
    obtain ⟨c, hc, hcmem⟩ := mappingAfterForm_lookup mapping hr
    exact ⟨c, hc, hcmem⟩

/-- C4: the cross-reference maps a category value to
(0-based index of its first contributing row) + 2 — the 1-based row position
plus the header offset, so the first data row is numbered 2 — and contains no
entry for a category with no contributing row; later rows of an already-seen
category never change the recorded position. -/
theorem crossReferenceRecordsFirstOccurrence
    (cls : List ClassifiedRow) (cat : Option String) :
    dictGet (buildCrossReference cls) cat
      = (firstOccurrence cat 0 cls).map fun j => j + 2 := by
  rw [buildCrossReference, crossRefAux_lookup]
  simp [dictGet]

/-- C5: the balance-sheet check is true exactly when
|Total Assets - Total Liabilities and Equity| < 1e-6 strictly, with
Total Assets = Current Assets + Long-term Assets and Total L&E =
Current Liabilities + Long-term Liabilities + Equity; it is advisory only —
both statements' line items are produced from the classified rows whatever
the flag — and the totals 500/300/200/100/500 give 800 = 800, check true. -/
theorem checkBalanceStrictThresholdAndAdvisory :
    (∀ cls : List ClassifiedRow,
      checkBalanceFlag cls = true ↔
        |(totalCurrentAssets cls + totalLongAssets cls)
            - ((totalCurrentLiab cls + totalLongLiab cls) + totalEquity cls)|
          < (1 : Rat) / 1000000) ∧
    (∀ (rows : List LedgerRow) (mapping : CategoryMapping),
      (generate rows mapping).incomeStatement
          = incomeStatementDF (classify rows (mappingAfterForm mapping rows)) ∧
      (generate rows mapping).balanceSheet
          = balanceSheetDF (classify rows (mappingAfterForm mapping rows))) ∧
    (totalAssets (classify
        [⟨"CA", 500, 0⟩, ⟨"LTA", 300, 0⟩, ⟨"CL", 200, 0⟩, ⟨"LTL", 100, 0⟩, ⟨"EQ", 500, 0⟩]
        (mappingAfterForm
          [("CA", "Current Assets"), ("LTA", "Long-term Assets"), ("CL", "Current Liabilities"),
           ("LTL", "Long-term Liabilities"), ("EQ", "Equity")]
          [⟨"CA", 500, 0⟩, ⟨"LTA", 300, 0⟩, ⟨"CL", 200, 0⟩, ⟨"LTL", 100, 0⟩, ⟨"EQ", 500, 0⟩])) = 800 ∧
     totalLiabilities (classify
        [⟨"CA", 500, 0⟩, ⟨"LTA", 300, 0⟩, ⟨"CL", 200, 0⟩, ⟨"LTL", 100, 0⟩, ⟨"EQ", 500, 0⟩]
        (mappingAfterForm
          [("CA", "Current Assets"), ("LTA", "Long-term Assets"), ("CL", "Current Liabilities"),
           ("LTL", "Long-term Liabilities"), ("EQ", "Equity")]
          [⟨"CA", 500, 0⟩, ⟨"LTA", 300, 0⟩, ⟨"CL", 200, 0⟩, ⟨"LTL", 100, 0⟩, ⟨"EQ", 500, 0⟩]))
        + totalEquity (classify
        [⟨"CA", 500, 0⟩, ⟨"LTA", 300, 0⟩, ⟨"CL", 200, 0⟩, ⟨"LTL", 100, 0⟩, ⟨"EQ", 500, 0⟩]
        (mappingAfterForm
          [("CA", "Current Assets"), ("LTA", "Long-term Assets"), ("CL", "Current Liabilities"),
           ("LTL", "Long-term Liabilities"), ("EQ", "Equity")]
          [⟨"CA", 500, 0⟩, ⟨"LTA", 300, 0⟩, ⟨"CL", 200, 0⟩, ⟨"LTL", 100, 0⟩, ⟨"EQ", 500, 0⟩])) = 800 ∧
     checkBalanceFlag (classify
        [⟨"CA", 500, 0⟩, ⟨"LTA", 300, 0⟩, ⟨"CL", 200, 0⟩, ⟨"LTL", 100, 0⟩, ⟨"EQ", 500, 0⟩]
        (mappingAfterForm
          [("CA", "Current Assets"), ("LTA", "Long-term Assets"), ("CL", "Current Liabilities"),
           ("LTL", "Long-term Liabilities"), ("EQ", "Equity")]
          [⟨"CA", 500, 0⟩, ⟨"LTA", 300, 0⟩, ⟨"CL", 200, 0⟩, ⟨"LTL", 100, 0⟩, ⟨"EQ", 500, 0⟩])) = true) := by
  refine ⟨fun cls => ?_, fun rows mapping => ⟨rfl, rfl⟩, ?_, ?_, ?_⟩
  · simp [checkBalanceFlag, totalAssets, totalLiabilities, totalCurrentAssets, totalLongAssets,
      totalCurrentLiab, totalLongLiab, totalEquity]
  all_goals
    norm_num +decide [checkBalanceFlag, classify, mappingAfterForm, uniqueAccounts, mappingStep,
      resolveCategory, formDefaultIndex, dictGet, listIdx, categories, catSum, totalAssets,
      totalCurrentAssets, totalLongAssets, totalLiabilities, totalCurrentLiab, totalLongLiab,
      totalEquity, List.filter]

end App

namespace App

/-- C6: the debit/credit validation warns exactly when
|total debits - total credits| > 1e-6 strictly, so a difference of exactly
1e-6 — total debits 1000 against total credits 999.999999 — counts as
balanced, and processing still produces the full output for such an upload. -/
theorem debitCreditWarningStrictThreshold :
    (∀ rows : List LedgerRow,
      balanceWarningFlag rows = true ↔
        |totalDebits rows - totalCredits rows| > (1 : Rat) / 1000000) ∧
    balanceWarningFlag [⟨"X", 1000, 0⟩, ⟨"Y", 0, 999999999 / 1000000⟩] = false ∧
    process ⟨["Account Name", "Debit", "Credit"],
        [⟨"X", 1000, 0⟩, ⟨"Y", 0, 999999999 / 1000000⟩]⟩ []
      = .ok (generate [⟨"X", 1000, 0⟩, ⟨"Y", 0, 999999999 / 1000000⟩] []) := by
  refine ⟨fun rows => by simp [balanceWarningFlag], ?_, ?_⟩
  · norm_num [balanceWarningFlag, totalDebits, totalCredits, abs_le]
  · rw [process, if_pos (by decide)]

/-- C7: statement generation is all-or-nothing on the input schema: when one
of the three required columns is missing the pipeline stops with the schema
error and computes nothing else, and when all three are present it returns
the complete generation output — income statement, balance sheet and
cross-reference together — with no other condition able to abort it. -/
theorem schemaCheckAllOrNothing (tb : UploadedTable) (mapping : CategoryMapping) :
    ((¬ ∀ c ∈ requiredColumns, c ∈ tb.columns) →
      process tb mapping
        = .error "The file must contain columns: Account Name, Debit, Credit") ∧
    ((∀ c ∈ requiredColumns, c ∈ tb.columns) →
      process tb mapping = .ok (generate tb.rows mapping)) := by
  constructor
  · intro h
    rw [process, if_neg h]
  · intro h
    rw [process, if_pos h]

/-- Witness for C7: a table missing "Debit" and "Credit" aborts with the
schema error, and a table with all three required columns yields the full
generation output. -/
theorem schemaCheckAllOrNothingWitness :
    process ⟨["Account Name"], []⟩ []
        = .error "The file must contain columns: Account Name, Debit, Credit" ∧
    process ⟨["Account Name", "Debit", "Credit"], []⟩ [] = .ok (generate [] []) :=
  ⟨(schemaCheckAllOrNothing ⟨["Account Name"], []⟩ []).1 (by decide),
   (schemaCheckAllOrNothing ⟨["Account Name", "Debit", "Credit"], []⟩ []).2 (by decide)⟩

/-- C8 counterexample: the mapping-store load is not total — on a store state
whose file exists but does not parse, `loadMapping` propagates the error
instead of returning an (empty or any) mapping, refuting the claim that load
never raises and treats a corrupt store as the empty state. -/
theorem mappingLoadCanFail :
    ¬ ∀ st : Option (Option CategoryMapping), ∃ m, loadMapping st = Except.ok m := by
  intro h
  obtain ⟨m, hm⟩ := h (some none)
  simp [loadMapping] at hm

/-- C8 amended: load returns the empty mapping when the store file is absent
and the parsed contents when the file is present and parseable; a present but
unparseable store raises the parse error to the caller (src/app.py lines
16-21 guard only `os.path.exists`, not the `json.load` parse). -/
theorem mappingLoadAbsentEmptyElseParse :
    loadMapping none = .ok [] ∧
    (∀ m : CategoryMapping, loadMapping (some (some m)) = .ok m) ∧
    loadMapping (some none) = .error () :=
  ⟨rfl, fun _ => rfl, rfl⟩

/-- C9: the cross-reference of an n-row classified ledger has pairwise
distinct row-number values, each lying between 2 and n + 1: no two categories
point at the same trial-balance row and every recorded row number falls on a
data row of the exported sheet. -/
theorem crossReferenceValuesDistinctAndInRange (cls : List ClassifiedRow) :
    ((buildCrossReference cls).map Prod.snd).Nodup ∧
    ∀ p ∈ buildCrossReference cls, 2 ≤ p.2 ∧ p.2 ≤ cls.length + 1 := by
  have h := crossRefAux_bounds cls 0 [] (by simp) (by simp)
  refine ⟨h.2, fun p hp => ?_⟩
  have := h.1 p hp
  omega

/-- Witness for C9 at a concrete one-row ledger: its cross-reference is
[(some "Revenue", 2)], whose values are distinct and inside [2, 2]. -/
theorem crossReferenceValuesDistinctAndInRangeWitness :
    ((buildCrossReference [⟨"A", 1, 0, some "Revenue", 1⟩]).map Prod.snd).Nodup ∧
    (2 ≤ (some "Revenue", 2).2 ∧
      (some "Revenue", 2).2 ≤ ([⟨"A", (1 : Rat), 0, some "Revenue", 1⟩] : List ClassifiedRow).length + 1) :=
  ⟨(crossReferenceValuesDistinctAndInRange [⟨"A", 1, 0, some "Revenue", 1⟩]).1,
   (crossReferenceValuesDistinctAndInRange [⟨"A", 1, 0, some "Revenue", 1⟩]).2
     (some "Revenue", 2) (by decide)⟩

/-- C10: when the loaded persistent mapping stores, for an account, a value
that is not one of the eight category labels, the mapping form's pre-selected
index falls back to 0 and the pre-selected category is "Current Assets"; the
lookup is total over arbitrary stored strings. -/
theorem formDefaultFallsBackOnInvalidStoredValue
    (mapping : CategoryMapping) (account v : String)
    (hv : dictGet mapping account = some v) (hnot : v ∉ categories) :
    formDefaultIndex mapping account = 0 ∧
    resolveCategory mapping account = "Current Assets" := by
  have hidx : formDefaultIndex mapping account = 0 := by
    unfold formDefaultIndex
    rw [hv]
    simpa using fun h => absurd h hnot
  refine ⟨hidx, ?_⟩
  unfold resolveCategory
  rw [hidx]
  decide

/-- Witness for C10: a stored mapping assigning "X" the non-label "Bogus"
pre-selects index 0, i.e. "Current Assets". -/
theorem formDefaultFallsBackOnInvalidStoredValueWitness :
    formDefaultIndex [("X", "Bogus")] "X" = 0 ∧
    resolveCategory [("X", "Bogus")] "X" = "Current Assets" :=
  formDefaultFallsBackOnInvalidStoredValue [("X", "Bogus")] "X" "Bogus" (by decide) (by decide)

end App
